import Mathlib

/-!
Shallow embedding of the authentication/session lifecycle and the per-user
todo isolation layer of the full-stack todo backend
(`src/fullstack-todo-app/backend/app`), together with theorems settling the
frozen claims about it.

Conventions of the embedding:
* UUIDs are represented by their canonical string form (`str(uuid)` in the
  source); `isCanonicalUUID` recognises the canonical 8-4-4-4-12 lowercase
  hex form that `str` of a UUID value produces.
* Wall-clock instants (`datetime.now(timezone.utc)`) are integers (epoch
  seconds) threaded explicitly.
* The database is a list of records; SQL `SELECT ... WHERE` is `List.filter`
  and the unique-row accessor `scalar_one_or_none` is modelled on the
  filtered list.
* Fallible Python code (raising exceptions) returns `Except`.
-/

namespace TodoApp

/-- Canonical textual form of a UUID value: what Python's `str(uuid)`
produces — 36 characters, hyphens at positions 8, 13, 18 and 23, lowercase
hex digits elsewhere. -/
def isHexLower (c : Char) : Bool :=
  c.isDigit || ('a' ≤ c && c ≤ 'f')

def isCanonicalUUID (s : String) : Bool :=
  s.length == 36 &&
  s.toList.enum.all (fun p =>
    if p.1 == 8 || p.1 == 13 || p.1 == 18 || p.1 == 23 then p.2 == '-'
    else isHexLower p.2)

/-- A user / todo identifier: the canonical string of the UUID. -/
abbrev UUIDStr := String

/-- Python `str(user_id)` on a UUID value is the canonical string itself. -/
def uuidToString (u : UUIDStr) : String := u

/-- Python `UUID(s)`: succeeds on the canonical form (the only inputs the
claims exercise), fails otherwise. -/
def uuidParse (s : String) : Option UUIDStr :=
  if isCanonicalUUID s then some s else none

/-- Decidable equality of `Except` results, so witnesses can evaluate the
fallible operations by `decide`. -/
instance {ε α : Type} [DecidableEq ε] [DecidableEq α] :
    DecidableEq (Except ε α) := fun x y =>
  match x, y with
  | .error a, .error b =>
    if h : a = b then isTrue (h ▸ rfl)
    else isFalse (fun hh => h (by cases hh; rfl))
  | .error _, .ok _ => isFalse (fun hh => Except.noConfusion hh)
  | .ok _, .error _ => isFalse (fun hh => Except.noConfusion hh)
  | .ok a, .ok b =>
    if h : a = b then isTrue (h ▸ rfl)
    else isFalse (fun hh => h (by cases hh; rfl))

/-! ### `app/utils/exceptions.py` -/

/-- The `AppException` hierarchy: each concrete subclass with its message. -/
inductive AppError where
  | authenticationError (message : String)
  | authorizationError (message : String)
  | notFoundError (message : String)
  | conflictError (message : String)
  | validationError (message : String)
  deriving DecidableEq, Repr

/-- `self.message` of the exception. -/
def AppError.message : AppError → String
  | .authenticationError m => m
  | .authorizationError m => m
  | .notFoundError m => m
  | .conflictError m => m
  | .validationError m => m

/-- `self.status_code` set by each subclass constructor. -/
def AppError.statusCode : AppError → Nat
  | .authenticationError _ => 401
  | .authorizationError _ => 403
  | .notFoundError _ => 404
  | .conflictError _ => 409
  | .validationError _ => 400

/-! ### `app/config.py` -/

/-- `Settings` (pydantic-settings), restricted to the fields the modelled
code reads; defaults as in the source. -/
structure Settings where
  jwt_secret_key : String := "your-256-bit-secret-key-here-minimum-32-chars"
  jwt_algorithm : String := "HS256"
  access_token_expire_minutes : Int := 15
  refresh_token_expire_days : Int := 7
  deriving DecidableEq, Repr

/-! ### `app/security/jwt.py` -/

/-- The claim set a token carries (`payload` dict). `exp` and `iat` are the
numeric dates jose serialises datetimes to. -/
structure TokenPayload where
  sub : Option String := none
  type : Option String := none
  exp : Int
  iat : Int
  jti : Option String := none
  deriving DecidableEq, Repr

/-- An encoded JWT: the claim set together with the signing key and
algorithm (standing for the signature `jwt.encode` produces). -/
structure SignedToken where
  payload : TokenPayload
  key : String
  alg : String
  deriving DecidableEq, Repr

/-- `TokenError`, distinguished by the message the source formats. -/
inductive TokenError where
  | invalidToken (msg : String)
  | invalidType (expected : String)
  | missingSubject
  | invalidUserId
  deriving DecidableEq, Repr

/-- `create_access_token`: claim set with `sub = str(user_id)`,
`type = "access"`, `exp = now + access_token_expire_minutes`,
`iat = now`, signed with the configured key and algorithm. -/
def create_access_token (s : Settings) (now : Int) (user_id : UUIDStr) :
    SignedToken :=
  { payload :=
      { sub := some (uuidToString user_id)
        type := some "access"
        exp := now + s.access_token_expire_minutes * 60
        iat := now }
    key := s.jwt_secret_key
    alg := s.jwt_algorithm }

/-- `create_refresh_token`: as above but `type = "refresh"`,
`exp = now + refresh_token_expire_days`, plus a fresh random `jti`
(the randomness is threaded in as a parameter). -/
def create_refresh_token (s : Settings) (now : Int) (jti : UUIDStr)
    (user_id : UUIDStr) : SignedToken :=
  { payload :=
      { sub := some (uuidToString user_id)
        type := some "refresh"
        jti := some (uuidToString jti)
        exp := now + s.refresh_token_expire_days * 86400
        iat := now }
    key := s.jwt_secret_key
    alg := s.jwt_algorithm }

/-- jose's `jwt.decode(token, key, algorithms=[alg])` as a black box:
rejects a signature made with a different key or algorithm, rejects an
elapsed `exp` (expired iff `exp < now`, zero leeway), otherwise returns the
claim set. Both failures surface as `JWTError`, which `verify_token` wraps
into `TokenError`. -/
def jwt_decode (tok : SignedToken) (key alg : String) (now : Int) :
    Except TokenError TokenPayload :=
  if tok.key ≠ key ∨ tok.alg ≠ alg then
    .error (.invalidToken "Invalid token: Signature verification failed.")
  else if tok.payload.exp < now then
    .error (.invalidToken "Invalid token: Signature has expired.")
  else
    .ok tok.payload

/-- Python truthiness of `payload.get("sub")`: absent or empty is falsy. -/
def subTruthy : Option String → Bool
  | none => false
  | some s => s ≠ ""

/-- `verify_token(token, token_type)`: decode, then check the `type` claim
equals the expected type, then check the subject claim is present. -/
def verify_token (s : Settings) (now : Int) (token : SignedToken)
    (token_type : String) : Except TokenError TokenPayload :=
  match jwt_decode token s.jwt_secret_key s.jwt_algorithm now with
  | .error e => .error e
  | .ok payload =>
    if payload.type ≠ some token_type then
      .error (.invalidType token_type)
    else if ¬ subTruthy payload.sub then
      .error .missingSubject
    else
      .ok payload

/-- `get_user_id_from_token`: verify, then `UUID(payload["sub"])`. -/
def get_user_id_from_token (s : Settings) (now : Int) (token : SignedToken)
    (token_type : String) : Except TokenError UUIDStr :=
  match verify_token s now token token_type with
  | .error e => .error e
  | .ok payload =>
    match payload.sub with
    | none => .error .invalidUserId
    | some str =>
      match uuidParse str with
      | none => .error .invalidUserId
      | some uid => .ok uid

/-! ### `app/models/enums.py` -/

inductive TodoStatus where
  | pending
  | in_progress
  | completed
  deriving DecidableEq, Repr

/-- The string value of the status member (stored in the `sa.String` column). -/
def TodoStatus.value : TodoStatus → String
  | .pending => "pending"
  | .in_progress => "in_progress"
  | .completed => "completed"

inductive Priority where
  | low
  | medium
  | high
  deriving DecidableEq, Repr

/-- The string value of the priority member (stored in the `sa.String` column). -/
def Priority.value : Priority → String
  | .low => "low"
  | .medium => "medium"
  | .high => "high"

/-! ### `app/models/todo.py` and `app/models/user.py` -/

/-- The `todos` table row. -/
structure Todo where
  id : UUIDStr
  user_id : UUIDStr
  title : String
  description : Option String := none
  status : TodoStatus := .pending
  priority : Priority := .medium
  due_date : Option Int := none
  tags : List String := []
  created_at : Int
  updated_at : Int
  deleted_at : Option Int := none
  deriving DecidableEq, Repr

/-- The `users` table row. -/
structure User where
  id : UUIDStr
  email : String
  username : String
  password_hash : String
  created_at : Int
  updated_at : Int
  deleted_at : Option Int := none
  deriving DecidableEq, Repr

/-! ### `app/utils/auto_tags.py` -/

def STOP_WORDS : List String :=
  ["a", "an", "the", "and", "or", "but", "in", "on", "at", "to", "for",
   "of", "with", "by", "from", "is", "it", "this", "that", "are", "was",
   "be", "have", "has", "had", "do", "does", "did", "will", "would",
   "could", "should", "may", "might", "can", "shall", "not", "no", "so",
   "if", "then", "than", "too", "very", "just", "about", "up", "out",
   "all", "also", "as", "into", "some", "my", "your", "our", "their",
   "its", "been", "being", "get", "got", "make", "need", "want", "know",
   "take", "come", "going", "thing", "things", "like", "more", "only",
   "over", "such", "after", "before", "between", "each", "every", "own",
   "same", "other", "which", "when", "where", "what", "who", "how",
   "new", "now", "way", "still", "use", "here", "there"]

/-- `CATEGORY_KEYWORDS`, in the dict's insertion order (Python dicts
iterate in insertion order). -/
def CATEGORY_KEYWORDS : List (String × List String) :=
  [("work",
    ["meeting", "project", "deadline", "client", "presentation",
     "report", "office", "team", "manager", "colleague", "email",
     "review", "sprint", "standup", "stakeholder", "deliverable",
     "proposal", "contract", "invoice", "milestone"]),
   ("personal",
    ["family", "friend", "birthday", "gift", "hobby", "vacation",
     "travel", "home", "house", "apartment", "pet", "dog", "cat",
     "party", "wedding", "anniversary", "dinner", "lunch"]),
   ("finance",
    ["budget", "payment", "invoice", "tax", "salary", "expense",
     "invest", "investment", "bank", "loan", "mortgage", "insurance",
     "bill", "receipt", "savings", "financial", "accounting", "refund"]),
   ("health",
    ["doctor", "appointment", "exercise", "gym", "workout", "run",
     "yoga", "meditation", "diet", "nutrition", "medicine",
     "prescription", "hospital", "dentist", "therapy", "mental",
     "sleep", "wellness", "checkup", "vitamin"]),
   ("learning",
    ["study", "course", "book", "read", "reading", "learn", "training",
     "tutorial", "lecture", "exam", "test", "homework", "assignment",
     "research", "certificate", "class", "workshop", "seminar",
     "practice", "skill"]),
   ("tech",
    ["code", "coding", "programming", "deploy", "deployment", "server",
     "database", "api", "bug", "fix", "debug", "update", "upgrade",
     "install", "configure", "setup", "backup", "security", "test",
     "testing", "release", "feature", "software", "app", "website"]),
   ("urgent",
    ["urgent", "asap", "immediately", "critical", "emergency",
     "important", "priority", "rush", "hurry", "overdue"]),
   ("shopping",
    ["buy", "purchase", "order", "shop", "shopping", "grocery",
     "groceries", "store", "amazon", "delivery"]),
   ("errands",
    ["pickup", "dropoff", "return", "mail", "post", "laundry",
     "clean", "cleaning", "repair", "maintenance", "renew"])]

/-- Python `str.lower` (ASCII case folding, which is all the claims
exercise). -/
def lowerStr (s : String) : String :=
  String.mk (s.toList.map Char.toLower)

/-- `text.split()`: the segments between whitespace (empty segments are
dropped by the subsequent cleaning step, matching Python's behaviour on
whitespace runs). -/
def splitWs : List Char → List Char → List (List Char)
  | [], acc => [acc.reverse]
  | c :: cs, acc =>
    if c.isWhitespace then acc.reverse :: splitWs cs []
    else splitWs cs (c :: acc)

/-- `"".join(c for c in word if c.isalnum())`. -/
def cleanWord (w : List Char) : String :=
  String.mk (w.filter Char.isAlphanum)

/-- The `words` set: cleaned whitespace-split tokens, nonempty, not stop
words; the Python `set` is modelled as a duplicate-free list (both uses —
intersection test and `sorted` — are order-insensitive). -/
def tokenWords (text : String) : List String :=
  (((splitWs text.toList []).map cleanWord).filter
    (fun w => w != "" && !(STOP_WORDS.contains w))).eraseDups

/-- Categories whose keyword set meets `words`, in dict order. -/
def matchedCategories (words : List String) : List String :=
  (CATEGORY_KEYWORDS.filter (fun ck => words.any (fun w => ck.2.contains w))).map
    Prod.fst

/-- Python's `word in kw` substring test on strings: the needle is a
contiguous run of the hay. -/
def isSubstrOf (needle hay : String) : Bool :=
  let n := needle.toList
  let h := hay.toList
  (List.range (h.length + 1)).any (fun i => n.isPrefixOf (h.drop i))

/-- Insertion into a `le`-sorted list. -/
def insertSorted (le : α → α → Bool) (x : α) : List α → List α
  | [] => [x]
  | y :: ys => if le x y then x :: y :: ys else y :: insertSorted le x ys

/-- Insertion sort (models Python `sorted` / SQL `ORDER BY`). -/
def sortList (le : α → α → Bool) : List α → List α
  | [] => []
  | x :: xs => insertSorted le x (sortList le xs)

/-- `sorted([w for w in words if len(w) >= 4 and w not in STOP_WORDS])`. -/
def significantWords (words : List String) : List String :=
  sortList (fun a b => decide (a ≤ b))
    (words.filter (fun w => w.length ≥ 4 && !(STOP_WORDS.contains w)))

/-- The tag-building loop: append each significant word not already a tag
and not a substring of a matched category name; stop once the list reaches
five entries (the check runs after each iteration's conditional append). -/
def addSignificant (matched : List String) (tags : List String) :
    List String → List String
  | [] => tags
  | w :: ws =>
    let tags' :=
      if !(tags.contains w) && !(matched.any (fun c => isSubstrOf w c))
      then tags ++ [w] else tags
    if tags'.length ≥ 5 then tags' else addSignificant matched tags' ws

/-- `extract_tags(title, description)`: lowercase text (the description is
appended only when truthy, i.e. present and nonempty), tokenize, match
category keyword sets, then append sorted significant words, returning at
most five tags. -/
def extract_tags (title : String) (description : Option String := none) :
    List String :=
  let text :=
    match description with
    | some d => if d != "" then lowerStr title ++ " " ++ lowerStr d
                else lowerStr title
    | none => lowerStr title
  let words := tokenWords text
  let matched := matchedCategories words
  (addSignificant matched matched (significantWords words)).take 5

/-! ### `app/models/schemas.py` (todo schemas) -/

/-- `TodoCreate` after pydantic validation. -/
structure TodoCreate where
  title : String
  description : Option String := none
  status : TodoStatus := .pending
  priority : Priority := .medium
  due_date : Option Int := none
  deriving DecidableEq, Repr

/-- The constraint pydantic enforces on `TodoCreate.title`:
`Field(min_length=1, max_length=255)`. -/
def TodoCreate.valid (d : TodoCreate) : Prop :=
  1 ≤ d.title.length ∧ d.title.length ≤ 255

/-- `TodoUpdate` after pydantic validation, with `exclude_unset` semantics:
the outer `Option` is "was the field supplied"; for the nullable columns
(`description`, `due_date`) the inner `Option` is the supplied value.
An explicitly `null` `title`/`status`/`priority` is rejected by the store's
NOT NULL column constraint before any record changes, so a supplied title
is a string here. -/
structure TodoUpdate where
  title : Option String := none
  description : Option (Option String) := none
  status : Option TodoStatus := none
  priority : Option Priority := none
  due_date : Option (Option Int) := none
  deriving DecidableEq, Repr

/-- The constraint pydantic enforces on a supplied `TodoUpdate.title`:
`Field(min_length=1, max_length=255)`. -/
def TodoUpdate.valid (d : TodoUpdate) : Prop :=
  ∀ t, d.title = some t → 1 ≤ t.length ∧ t.length ≤ 255

/-- `TodoResponse` (the fields `model_validate` copies from the row). -/
structure TodoResponse where
  id : UUIDStr
  user_id : UUIDStr
  title : String
  description : Option String
  status : TodoStatus
  priority : Priority
  due_date : Option Int
  tags : List String
  created_at : Int
  updated_at : Int
  deriving DecidableEq, Repr

def TodoResponse.ofTodo (t : Todo) : TodoResponse :=
  { id := t.id, user_id := t.user_id, title := t.title
    description := t.description, status := t.status, priority := t.priority
    due_date := t.due_date, tags := t.tags
    created_at := t.created_at, updated_at := t.updated_at }

/-- `PaginatedData`. -/
structure PaginatedData where
  items : List TodoResponse
  page : Nat
  per_page : Nat
  total : Nat
  total_pages : Nat
  deriving DecidableEq, Repr

/-! ### `app/services/todo_service.py` -/

/-- The WHERE clause every accessor composes:
`id == todo_id AND user_id == user_id AND deleted_at IS NULL`. -/
def todoMatches (todo_id user_id : UUIDStr) (t : Todo) : Bool :=
  t.id == todo_id && t.user_id == user_id && t.deleted_at == none

/-- `TodoService.get_todo`: run the filtered query and take its unique row
(`scalar_one_or_none`; `id` is the table's primary key, so at most one row
matches and `List.find?` coincides with it), raising `NotFoundError` on a
miss. -/
def get_todo (db : List Todo) (todo_id user_id : UUIDStr) :
    Except AppError Todo :=
  match db.find? (todoMatches todo_id user_id) with
  | none => .error (.notFoundError "Todo not found")
  | some t => .ok t

/-- `TodoService.create_todo`: build a row owned by `user_id` with tags
extracted from the title and description, and insert it. The fresh primary
key and the creation instant are threaded in. -/
def create_todo (db : List Todo) (user_id : UUIDStr) (d : TodoCreate)
    (new_id : UUIDStr) (now : Int) : Todo × List Todo :=
  let todo : Todo :=
    { id := new_id, user_id := user_id, title := d.title
      description := d.description, status := d.status
      priority := d.priority, due_date := d.due_date
      tags := extract_tags d.title d.description
      created_at := now, updated_at := now, deleted_at := none }
  (todo, db ++ [todo])

/-- The mutation `update_todo` performs on the fetched row: apply the
supplied fields, regenerate tags when title or description was supplied,
and refresh `updated_at`. -/
def applyUpdate (t : Todo) (d : TodoUpdate) (now : Int) : Todo :=
  let t1 : Todo :=
    { t with
      title := d.title.getD t.title
      description := d.description.getD t.description
      status := d.status.getD t.status
      priority := d.priority.getD t.priority
      due_date := d.due_date.getD t.due_date }
  let t2 : Todo :=
    if d.title.isSome || d.description.isSome
    then { t1 with tags := extract_tags t1.title t1.description }
    else t1
  { t2 with updated_at := now }

/-- `TodoService.update_todo`: fetch with the ownership filter, mutate the
row in place (replacement keyed by the primary key), flush. -/
def update_todo (db : List Todo) (todo_id user_id : UUIDStr) (d : TodoUpdate)
    (now : Int) : Except AppError (Todo × List Todo) :=
  match get_todo db todo_id user_id with
  | .error e => .error e
  | .ok t =>
    let t' := applyUpdate t d now
    .ok (t', db.map (fun x => if x.id == t.id then t' else x))

/-- `TodoService.soft_delete_todo`: fetch with the ownership filter and set
`deleted_at` on the row (the row is not removed). -/
def soft_delete_todo (db : List Todo) (todo_id user_id : UUIDStr)
    (now : Int) : Except AppError (List Todo) :=
  match get_todo db todo_id user_id with
  | .error e => .error e
  | .ok t =>
    .ok (db.map (fun x => if x.id == t.id then { t with deleted_at := some now }
                          else x))

/-- The store after `soft_delete_todo` succeeds on row `t`: the row is kept,
with `deleted_at` stamped (named here so theorems can refer to it). -/
def softDeleted (db : List Todo) (t : Todo) (now : Int) : List Todo :=
  db.map (fun x => if x.id == t.id then { t with deleted_at := some now }
                   else x)

/-- The record invariant of claim C9: title between 1 and 255 characters
and at most five derived tags. -/
def TodoInv (t : Todo) : Prop :=
  1 ≤ t.title.length ∧ t.title.length ≤ 255 ∧ t.tags.length ≤ 5

/-- The list query's WHERE clause: owner, not deleted, optional status /
priority filters (enum members are truthy, so `if status:` is a presence
test), and the `due == "today"` / `due == "upcoming"` window against the
day's bounds. -/
def listFilter (user_id : UUIDStr) (status : Option TodoStatus)
    (priority : Option Priority) (due : Option String)
    (today_start today_end : Int) (t : Todo) : Bool :=
  t.user_id == user_id && t.deleted_at == none &&
  (match status with | some st => t.status == st | none => true) &&
  (match priority with | some p => t.priority == p | none => true) &&
  (if due == some "today" then
     match t.due_date with
     | some dd => today_start ≤ dd && dd ≤ today_end
     | none => false
   else if due == some "upcoming" then
     match t.due_date with
     | some dd => today_end < dd
     | none => false
   else true)

/-- Ascending comparison on nullable due dates (SQL `ORDER BY` with the
store's default NULLS LAST in ascending order). -/
def dueLe : Option Int → Option Int → Bool
  | none, none => true
  | none, some _ => false
  | some _, none => true
  | some a, some b => a ≤ b

/-- Ascending order for `getattr(Todo, sort_by, Todo.created_at)`: the route
constrains `sort_by` to created_at / due_date / priority, anything else
falls back to `created_at`; `priority` is a string column, compared
lexicographically. -/
def sortAsc (sort_by : String) (a b : Todo) : Bool :=
  if sort_by == "due_date" then dueLe a.due_date b.due_date
  else if sort_by == "priority" then a.priority.value ≤ b.priority.value
  else a.created_at ≤ b.created_at

/-- The ORDER BY comparator: descending is the reverse of ascending. -/
def sortLe (sort_by sort_order : String) (a b : Todo) : Bool :=
  if sort_order == "desc" then sortAsc sort_by b a else sortAsc sort_by a b

/-- `TodoService.list_todos`: filter, count, sort, paginate with
`offset = (page - 1) * per_page` and `limit = per_page`, and compute
`total_pages = (total + per_page - 1) // per_page` when any row matched. -/
def list_todos (db : List Todo) (user_id : UUIDStr)
    (page : Nat := 1) (per_page : Nat := 20)
    (status : Option TodoStatus := none) (priority : Option Priority := none)
    (due : Option String := none) (today_start : Int := 0)
    (today_end : Int := 0) (sort_by : String := "created_at")
    (sort_order : String := "desc") : PaginatedData :=
  let filtered :=
    db.filter (listFilter user_id status priority due today_start today_end)
  let total := filtered.length
  let sorted := sortList (sortLe sort_by sort_order) filtered
  let items := (sorted.drop ((page - 1) * per_page)).take per_page
  let total_pages := if total > 0 then (total + per_page - 1) / per_page else 0
  { items := items.map TodoResponse.ofTodo
    page := page, per_page := per_page
    total := total, total_pages := total_pages }

/-! ### `app/services/user_service.py` (the lookups the auth service uses) -/

/-- `UserService.get_by_email`: lookup by normalized (lowercased) email,
excluding soft-deleted users. -/
def get_by_email (db : List User) (email : String) : Option User :=
  db.find? (fun u => u.email == lowerStr email && u.deleted_at == none)

/-! ### `app/models/schemas.py` (auth/user schemas) -/

/-- `TokenData`: the access token returned in the response body. -/
structure TokenData where
  access_token : SignedToken
  token_type : String := "bearer"
  deriving DecidableEq, Repr

/-- `UserResponse` (the fields `model_validate` copies from the row). -/
structure UserResponse where
  id : UUIDStr
  email : String
  username : String
  created_at : Int
  deriving DecidableEq, Repr

/-! ### `app/services/auth_service.py` -/

/-- `AuthService.authenticate_user`: look up by normalized email; if the
user is absent, or the password hash comparison fails, raise the single
generic `AuthenticationError("Invalid credentials")`; otherwise issue the
token pair. The password verifier is the black-box `verify_password`
primitive, threaded in as a function, and the refresh token's random `jti`
is threaded in as a parameter. -/
def authenticate_user (verify_pw : String → String → Bool) (s : Settings)
    (now : Int) (jti : UUIDStr) (db : List User) (email password : String) :
    Except AppError (User × TokenData × SignedToken) :=
  match get_by_email db email with
  | none => .error (.authenticationError "Invalid credentials")
  | some user =>
    if verify_pw password user.password_hash then
      .ok (user, { access_token := create_access_token s now user.id },
           create_refresh_token s now jti user.id)
    else
      .error (.authenticationError "Invalid credentials")

/-! ### Response envelopes (`APIResponse` in `app/models/schemas.py`, the
handlers in `app/api/v1/`, and `app/middleware/error_handler.py`) -/

/-- The possible `data` payloads of the envelope-returning endpoints. -/
inductive Payload where
  | paginated (p : PaginatedData)
  | todoItem (r : TodoResponse)
  | token (t : TokenData)
  | userProfile (u : UserResponse)
  deriving DecidableEq, Repr

/-- The serialized `APIResponse` envelope: `success`, `data` (payload or
null), `error` (string or null), `timestamp`. Both `data` and `error`
default to `None` in the pydantic model. -/
structure Envelope where
  success : Bool
  data : Option Payload := none
  error : Option String := none
  timestamp : Int
  deriving DecidableEq, Repr

/-- `GET /todos` handler result. -/
def list_todos_envelope (pd : PaginatedData) (ts : Int) : Envelope :=
  { success := true, data := some (.paginated pd), timestamp := ts }

/-- `POST /todos` handler result. -/
def create_todo_envelope (r : TodoResponse) (ts : Int) : Envelope :=
  { success := true, data := some (.todoItem r), timestamp := ts }

/-- `GET /todos/{id}` handler result. -/
def get_todo_envelope (r : TodoResponse) (ts : Int) : Envelope :=
  { success := true, data := some (.todoItem r), timestamp := ts }

/-- `PATCH /todos/{id}` handler result. -/
def update_todo_envelope (r : TodoResponse) (ts : Int) : Envelope :=
  { success := true, data := some (.todoItem r), timestamp := ts }

/-- `DELETE /todos/{id}` handler result: `APIResponse(success=True,
data=None, ...)` — the `error` field keeps its `None` default. -/
def delete_todo_envelope (ts : Int) : Envelope :=
  { success := true, data := none, timestamp := ts }

/-- `POST /auth/signup` handler result. -/
def signup_envelope (td : TokenData) (ts : Int) : Envelope :=
  { success := true, data := some (.token td), timestamp := ts }

/-- `POST /auth/login` handler result. -/
def login_envelope (td : TokenData) (ts : Int) : Envelope :=
  { success := true, data := some (.token td), timestamp := ts }

/-- `POST /auth/refresh` handler result. -/
def refresh_envelope (td : TokenData) (ts : Int) : Envelope :=
  { success := true, data := some (.token td), timestamp := ts }

/-- `POST /auth/logout` handler result: `data=None`, `error` defaulted. -/
def logout_envelope (ts : Int) : Envelope :=
  { success := true, data := none, timestamp := ts }

/-- `GET /users/me` handler result. -/
def me_envelope (u : UserResponse) (ts : Int) : Envelope :=
  { success := true, data := some (.userProfile u), timestamp := ts }

/-- `PATCH /users/me` handler result. -/
def update_me_envelope (u : UserResponse) (ts : Int) : Envelope :=
  { success := true, data := some (.userProfile u), timestamp := ts }

/-- The `AppException` handler's JSON body. -/
def app_exception_envelope (e : AppError) (ts : Int) : Envelope :=
  { success := false, data := none, error := some e.message, timestamp := ts }

/-- The pydantic-validation handler's JSON body. -/
def validation_error_envelope (msg : String) (ts : Int) : Envelope :=
  { success := false, data := none, error := some msg, timestamp := ts }

/-- The catch-all handler's JSON body. -/
def unexpected_error_envelope (ts : Int) : Envelope :=
  { success := false, data := none,
    error := some "An unexpected error occurred", timestamp := ts }

/-- The JSON bodies the application returns that are *not* the
`APIResponse` envelope:
* `rootInfo` — the root endpoint `GET /` in `app/main.py` returns a bare
  `{"message": ..., "docs": ...}` dict;
* `healthStatus` — `GET /api/v1/health` returns a bare
  `{"status": ..., "timestamp": ..., "database": ...}` dict;
* `httpDetail` — FastAPI's default `HTTPException` handler body
  `{"detail": ...}`; `HTTPBearer()` in `app/dependencies.py` has
  `auto_error=True`, so a missing or malformed Authorization header raises
  `HTTPException(403, "Not authenticated")`, which no registered handler
  intercepts;
* `validationDetail` — FastAPI's default 422 body `{"detail": [...]}` for
  `RequestValidationError`: the handler registered in
  `app/middleware/error_handler.py` catches `pydantic.ValidationError`,
  which `RequestValidationError` does not subclass in this Pydantic-v2
  stack, so request-validation failures fall through to the framework
  default (the error items are kept abstract as strings). -/
inductive BareBody where
  | rootInfo (message docs : String)
  | healthStatus (status timestamp database : String)
  | httpDetail (detail : String)
  | validationDetail (errors : List String)
  deriving DecidableEq, Repr

/-- A response body: the `APIResponse` envelope or one of the bare JSON
dicts above. -/
inductive ResponseBody where
  | envelope (e : Envelope)
  | bare (b : BareBody)
  deriving DecidableEq, Repr

/-- Whether a response body is the `APIResponse` envelope. -/
def ResponseBody.isEnvelope : ResponseBody → Bool
  | .envelope _ => true
  | .bare _ => false

/-- The response bodies the application can produce: one constructor per
handler (every route of `app/main.py` and `app/api/v1/`, the registered
exception handlers of `app/middleware/error_handler.py`, and the framework
defaults that fire for `HTTPBearer`'s 403 and for request-validation
422s). -/
inductive ProducedResponse : ResponseBody → Prop where
  | listTodos (pd ts) : ProducedResponse (.envelope (list_todos_envelope pd ts))
  | createTodo (r ts) : ProducedResponse (.envelope (create_todo_envelope r ts))
  | getTodo (r ts) : ProducedResponse (.envelope (get_todo_envelope r ts))
  | updateTodo (r ts) : ProducedResponse (.envelope (update_todo_envelope r ts))
  | deleteTodo (ts) : ProducedResponse (.envelope (delete_todo_envelope ts))
  | signup (td ts) : ProducedResponse (.envelope (signup_envelope td ts))
  | login (td ts) : ProducedResponse (.envelope (login_envelope td ts))
  | refresh (td ts) : ProducedResponse (.envelope (refresh_envelope td ts))
  | logout (ts) : ProducedResponse (.envelope (logout_envelope ts))
  | me (u ts) : ProducedResponse (.envelope (me_envelope u ts))
  | updateMe (u ts) : ProducedResponse (.envelope (update_me_envelope u ts))
  | appException (e ts) :
      ProducedResponse (.envelope (app_exception_envelope e ts))
  | validationFailure (msg ts) :
      ProducedResponse (.envelope (validation_error_envelope msg ts))
  | unexpected (ts) :
      ProducedResponse (.envelope (unexpected_error_envelope ts))
  | root : ProducedResponse (.bare (.rootInfo "Full-Stack Todo API" "/api/docs"))
  | health (connected : Bool) (ts : String) :
      ProducedResponse (.bare (.healthStatus
        (if connected then "healthy" else "unhealthy") ts
        (if connected then "connected" else "disconnected")))
  | missingBearer : ProducedResponse (.bare (.httpDetail "Not authenticated"))
  | requestValidation (errors : List String) :
      ProducedResponse (.bare (.validationDetail errors))

/-! ### Concrete fixtures used by witnesses -/

/-- A store of `n` todos owned by `"u"`, with distinct ids and creation
instants. -/
def sampleTodos (n : Nat) : List Todo :=
  (List.range n).map (fun i =>
    { id := toString i, user_id := "u", title := "Test",
      created_at := (i : Int), updated_at := (i : Int) })

end TodoApp

namespace TodoApp

/-- A canonical UUID string is nonempty (it has 36 characters). -/
theorem canonicalUUID_ne_empty {u : UUIDStr} (hu : isCanonicalUUID u = true) :
    u ≠ "" := by
  intro h
  rw [h] at hu
  simp [isCanonicalUUID] at hu

/-- Round trip, access side. -/
theorem round_trip_access (s : Settings) (now : Int) (u : UUIDStr)
    (hu : isCanonicalUUID u = true)
    (hm : 0 < s.access_token_expire_minutes) :
    get_user_id_from_token s now (create_access_token s now u) "access" =
      .ok u := by
  unfold get_user_id_from_token verify_token jwt_decode create_access_token
  have hexp : ¬ (now + s.access_token_expire_minutes * 60 < now) := by
    have : 0 < s.access_token_expire_minutes * 60 := by positivity
    omega
  simp [hexp, subTruthy, uuidToString, uuidParse, hu, canonicalUUID_ne_empty hu]

/-- Round trip, refresh side. -/
theorem round_trip_refresh (s : Settings) (now : Int) (u jti : UUIDStr)
    (hu : isCanonicalUUID u = true)
    (hd : 0 < s.refresh_token_expire_days) :
    get_user_id_from_token s now (create_refresh_token s now jti u) "refresh" =
      .ok u := by
  unfold get_user_id_from_token verify_token jwt_decode create_refresh_token
  have hexp : ¬ (now + s.refresh_token_expire_days * 86400 < now) := by
    have : 0 < s.refresh_token_expire_days * 86400 := by positivity
    omega
  simp [hexp, subTruthy, uuidToString, uuidParse, hu, canonicalUUID_ne_empty hu]

/-- **C2.** For every valid user identity `U` (a canonical UUID) and any
configuration with positive token lifetimes, verifying a freshly issued
access token with expected type `"access"` yields subject `U`, and
verifying a freshly issued refresh token with expected type `"refresh"`
yields subject `U` (issue/verify round-trip through
`create_access_token` / `create_refresh_token` / `get_user_id_from_token`). -/
theorem C2_issue_verify_round_trip (s : Settings) (now : Int) (u jti : UUIDStr)
    (hu : isCanonicalUUID u = true)
    (hm : 0 < s.access_token_expire_minutes)
    (hd : 0 < s.refresh_token_expire_days) :
    get_user_id_from_token s now (create_access_token s now u) "access" =
        .ok u ∧
    get_user_id_from_token s now (create_refresh_token s now jti u) "refresh" =
        .ok u :=
  ⟨round_trip_access s now u hu hm, round_trip_refresh s now u jti hu hd⟩

/-- Witness for C2 at the default settings, time 0 and a concrete UUID. -/
theorem C2_witness :
    get_user_id_from_token {} 0
        (create_access_token {} 0 "123e4567-e89b-12d3-a456-426614174000")
        "access" = .ok "123e4567-e89b-12d3-a456-426614174000" ∧
    get_user_id_from_token {} 0
        (create_refresh_token {} 0 "00000000-0000-0000-0000-000000000000"
          "123e4567-e89b-12d3-a456-426614174000")
        "refresh" = .ok "123e4567-e89b-12d3-a456-426614174000" :=
  C2_issue_verify_round_trip {} 0 "123e4567-e89b-12d3-a456-426614174000"
    "00000000-0000-0000-0000-000000000000" (by decide) (by decide) (by decide)

/-- Cross verification, access token checked as refresh. -/
theorem cross_verify_access_as_refresh (s : Settings) (now : Int)
    (u : UUIDStr) (hm : 0 ≤ s.access_token_expire_minutes) :
    verify_token s now (create_access_token s now u) "refresh" =
      .error (.invalidType "refresh") := by
  unfold verify_token jwt_decode create_access_token
  have hexp : ¬ (now + s.access_token_expire_minutes * 60 < now) := by
    have : 0 ≤ s.access_token_expire_minutes * 60 := by positivity
    omega
  simp [hexp]

/-- Cross verification, refresh token checked as access. -/
theorem cross_verify_refresh_as_access (s : Settings) (now : Int)
    (u jti : UUIDStr) (hd : 0 ≤ s.refresh_token_expire_days) :
    verify_token s now (create_refresh_token s now jti u) "access" =
      .error (.invalidType "access") := by
  unfold verify_token jwt_decode create_refresh_token
  have hexp : ¬ (now + s.refresh_token_expire_days * 86400 < now) := by
    have : 0 ≤ s.refresh_token_expire_days * 86400 := by positivity
    omega
  simp [hexp]

/-- **C5.** Verifying a fresh access token with `expected_type = "refresh"`,
and a fresh refresh token with `expected_type = "access"`, always fails with
the type-mismatch `TokenError` — in particular no claims are ever returned
(the result is an `error`, never `ok`). -/
theorem C5_token_type_mismatch (s : Settings) (now : Int) (u jti : UUIDStr)
    (hm : 0 ≤ s.access_token_expire_minutes)
    (hd : 0 ≤ s.refresh_token_expire_days) :
    verify_token s now (create_access_token s now u) "refresh" =
        .error (.invalidType "refresh") ∧
    verify_token s now (create_refresh_token s now jti u) "access" =
        .error (.invalidType "access") :=
  ⟨cross_verify_access_as_refresh s now u hm,
   cross_verify_refresh_as_access s now u jti hd⟩

/-- If no row satisfies the composed filter, `get_todo` raises
`NotFoundError("Todo not found")`. -/
theorem get_todo_miss {db : List Todo} {tid uid : UUIDStr}
    (h : ∀ x ∈ db, todoMatches tid uid x = false) :
    get_todo db tid uid = .error (.notFoundError "Todo not found") := by
  unfold get_todo
  have hnone : db.find? (todoMatches tid uid) = none := by
    rw [List.find?_eq_none]
    intro x hx
    simp [h x hx]
  rw [hnone]

/-- `update_todo` propagates the fetch error unchanged. -/
theorem update_todo_err {db : List Todo} {tid uid : UUIDStr} {d : TodoUpdate}
    {now : Int} {e : AppError} (h : get_todo db tid uid = .error e) :
    update_todo db tid uid d now = .error e := by
  simp [update_todo, h]

/-- `soft_delete_todo` propagates the fetch error unchanged. -/
theorem soft_delete_todo_err {db : List Todo} {tid uid : UUIDStr}
    {now : Int} {e : AppError} (h : get_todo db tid uid = .error e) :
    soft_delete_todo db tid uid now = .error e := by
  simp [soft_delete_todo, h]

/-- With a non-owner identity the composed filter misses every row carrying
the requested id (ids are unique, so they all belong to the owner). -/
theorem todoMatches_false_of_other_user {db : List Todo} {t : Todo}
    {u2 : UUIDStr}
    (hid : ∀ x ∈ db, x.id = t.id → x.user_id = t.user_id)
    (hne : u2 ≠ t.user_id) :
    ∀ x ∈ db, todoMatches t.id u2 x = false := by
  intro x hx
  simp only [todoMatches, Bool.and_eq_false_imp, beq_iff_eq]
  rcases hxid : (x.id == t.id) with _ | _
  · simp
  · simp only [beq_iff_eq] at hxid
    have := hid x hx hxid
    simp [Bool.and_eq_false_iff, beq_eq_false_iff_ne, this, Ne.symm hne]

/-- A nonexistent id misses every row. -/
theorem todoMatches_false_of_missing (u : UUIDStr) {db : List Todo}
    {missing : UUIDStr} (h : ∀ x ∈ db, x.id ≠ missing) :
    ∀ x ∈ db, todoMatches missing u x = false := by
  intro x hx
  simp [todoMatches, Bool.and_eq_false_iff, beq_eq_false_iff_ne, h x hx]

/-- **C1.** For a task owned by `t.user_id` and any other identity `u2`,
`get`, `update` and `soft_delete` performed as `u2` on that task all fail
with `NotFoundError("Todo not found")` (status 404), and the outcome is the
very same error value produced for a task id that exists nowhere in the
store. The id-uniqueness hypothesis reflects the primary key on `todos.id`. -/
theorem C1_cross_user_isolation (db : List Todo) (t : Todo) (u2 : UUIDStr)
    (d : TodoUpdate) (now : Int) (missing_id : UUIDStr)
    (_hmem : t ∈ db)
    (hid : ∀ x ∈ db, x.id = t.id → x.user_id = t.user_id)
    (hne : u2 ≠ t.user_id)
    (hmissing : ∀ x ∈ db, x.id ≠ missing_id) :
    get_todo db t.id u2 = .error (.notFoundError "Todo not found") ∧
    update_todo db t.id u2 d now = .error (.notFoundError "Todo not found") ∧
    soft_delete_todo db t.id u2 now =
      .error (.notFoundError "Todo not found") ∧
    get_todo db missing_id u2 = .error (.notFoundError "Todo not found") ∧
    update_todo db missing_id u2 d now =
      .error (.notFoundError "Todo not found") ∧
    soft_delete_todo db missing_id u2 now =
      .error (.notFoundError "Todo not found") ∧
    (AppError.notFoundError "Todo not found").statusCode = 404 := by
  have h1 := get_todo_miss (todoMatches_false_of_other_user hid hne)
  have h2 := get_todo_miss (todoMatches_false_of_missing u2 hmissing)
  exact ⟨h1, update_todo_err h1, soft_delete_todo_err h1,
         h2, update_todo_err h2, soft_delete_todo_err h2, rfl⟩

/-- Witness for C1: a one-row store owned by `u1`, accessed as `u2`. -/
theorem C1_witness :
    get_todo
        [{ id := "t1", user_id := "u1", title := "Test",
           created_at := 0, updated_at := 0 }] "t1" "u2" =
      .error (.notFoundError "Todo not found") ∧
    get_todo
        [{ id := "t1", user_id := "u1", title := "Test",
           created_at := 0, updated_at := 0 }] "zz" "u2" =
      .error (.notFoundError "Todo not found") := by
  have h := C1_cross_user_isolation
    [{ id := "t1", user_id := "u1", title := "Test",
       created_at := 0, updated_at := 0 }]
    { id := "t1", user_id := "u1", title := "Test",
      created_at := 0, updated_at := 0 }
    "u2" {} 0 "zz" (by decide) (by decide) (by decide) (by decide)
  exact ⟨h.1, h.2.2.2.1⟩

/-- Witness for C5 at the default settings. -/
theorem C5_witness :
    verify_token {} 0
        (create_access_token {} 0 "123e4567-e89b-12d3-a456-426614174000")
        "refresh" = .error (.invalidType "refresh") ∧
    verify_token {} 0
        (create_refresh_token {} 0 "00000000-0000-0000-0000-000000000000"
          "123e4567-e89b-12d3-a456-426614174000")
        "access" = .error (.invalidType "access") :=
  C5_token_type_mismatch {} 0 "123e4567-e89b-12d3-a456-426614174000"
    "00000000-0000-0000-0000-000000000000" (by decide) (by decide)

/-- Membership through sorted insertion. -/
theorem mem_insertSorted {α} {le : α → α → Bool} {x y : α} {l : List α}
    (h : y ∈ insertSorted le x l) : y = x ∨ y ∈ l := by
  induction l with
  | nil =>
    rw [insertSorted] at h
    exact Or.inl (List.mem_singleton.mp h)
  | cons a l ih =>
    rw [insertSorted] at h
    by_cases hle : le x a
    · simp only [hle, if_pos] at h
      rcases List.mem_cons.mp h with h1 | h1
      · exact Or.inl h1
      · exact Or.inr h1
    · simp only [hle, if_neg, Bool.false_eq_true, not_false_iff] at h
      rcases List.mem_cons.mp h with h1 | h1
      · exact Or.inr (by simp [h1])
      · rcases ih h1 with h2 | h2
        · exact Or.inl h2
        · exact Or.inr (List.mem_cons_of_mem _ h2)

/-- Membership through the insertion sort. -/
theorem mem_sortList {α} {le : α → α → Bool} {y : α} {l : List α}
    (h : y ∈ sortList le l) : y ∈ l := by
  induction l with
  | nil => rw [sortList] at h; exact h
  | cons a l ih =>
    rw [sortList] at h
    rcases mem_insertSorted h with h1 | h1
    · simp [h1]
    · exact List.mem_cons_of_mem _ (ih h1)

/-- `find?` returns the unique element satisfying the predicate. -/
theorem find?_eq_of_unique {α} {p : α → Bool} {l : List α} {t : α}
    (hmem : t ∈ l) (hp : p t = true)
    (huniq : ∀ x ∈ l, p x = true → x = t) :
    l.find? p = some t := by
  induction l with
  | nil => cases hmem
  | cons a l ih =>
    by_cases ha : p a = true
    · have hat : a = t := huniq a (List.mem_cons_self a l) ha
      simp [List.find?_cons, ha, hat, hp]
    · have hta : t ≠ a := fun h => ha (h ▸ hp)
      have hmem' : t ∈ l := by
        rcases List.mem_cons.mp hmem with h | h
        · exact absurd h hta
        · exact h
      have hfind := ih hmem'
        (fun x hx hpx => huniq x (List.mem_cons_of_mem _ hx) hpx)
      simp [List.find?_cons, ha, hfind]

/-- `get_todo` returns the live row owned by the caller (the uniqueness
hypothesis reflects the primary key on `todos.id`). -/
theorem get_todo_hit {db : List Todo} {t : Todo}
    (hmem : t ∈ db) (halive : t.deleted_at = none)
    (hid : ∀ x ∈ db, x.id = t.id → x = t) :
    get_todo db t.id t.user_id = .ok t := by
  unfold get_todo
  have hp : todoMatches t.id t.user_id t = true := by
    simp [todoMatches, halive]
  have huniq : ∀ x ∈ db, todoMatches t.id t.user_id x = true → x = t := by
    intro x hx hpx
    simp only [todoMatches, Bool.and_eq_true, beq_iff_eq] at hpx
    exact hid x hx hpx.1.1
  rw [find?_eq_of_unique hmem hp huniq]

/-- After the soft delete every row of the store either is the stamped row
or carries a different id, so the composed filter misses all of them. -/
theorem todoMatches_false_after_delete {db : List Todo} {t : Todo}
    {now : Int} (uid' : UUIDStr) :
    ∀ x ∈ softDeleted db t now, todoMatches t.id uid' x = false := by
  intro x hx
  rcases List.mem_map.mp hx with ⟨y, _hy, hyx⟩
  by_cases hyid : y.id = t.id
  · have : x = { t with deleted_at := some now } := by
      rw [← hyx]; simp [hyid]
    simp [this, todoMatches]
  · have : x = y := by rw [← hyx]; simp [hyid]
    subst this
    simp [todoMatches, Bool.and_eq_false_iff, beq_eq_false_iff_ne, hyid]

/-- **C4.** Soft deletion stamps `deleted_at` and keeps the row: the store
still contains the record with its delete timestamp and its size is
unchanged; afterwards `get`, `update` and a second `soft_delete` on that id
(under any identity) all fail with the same `NotFoundError("Todo not
found")` — not a distinct "already deleted" error — and no `list` result of
any user, page, filter or sort ever contains the deleted id. -/
theorem C4_soft_delete_semantics (db : List Todo) (t : Todo) (now : Int)
    (hmem : t ∈ db) (halive : t.deleted_at = none)
    (hid : ∀ x ∈ db, x.id = t.id → x = t) :
    soft_delete_todo db t.id t.user_id now = .ok (softDeleted db t now) ∧
    { t with deleted_at := some now } ∈ softDeleted db t now ∧
    (softDeleted db t now).length = db.length ∧
    (∀ uid', get_todo (softDeleted db t now) t.id uid' =
      .error (.notFoundError "Todo not found")) ∧
    (∀ uid' d now2, update_todo (softDeleted db t now) t.id uid' d now2 =
      .error (.notFoundError "Todo not found")) ∧
    (∀ uid' now2, soft_delete_todo (softDeleted db t now) t.id uid' now2 =
      .error (.notFoundError "Todo not found")) ∧
    (∀ uid' page per_page status priority due ts te sb so,
      ∀ r ∈ (list_todos (softDeleted db t now) uid' page per_page status
              priority due ts te sb so).items, r.id ≠ t.id) := by
  have hget : get_todo db t.id t.user_id = .ok t := get_todo_hit hmem halive hid
  refine ⟨?_, ?_, ?_, ?_, ?_, ?_, ?_⟩
  · simp [soft_delete_todo, hget, softDeleted]
  · exact List.mem_map.mpr ⟨t, hmem, by simp⟩
  · simp [softDeleted]
  · intro uid'
    exact get_todo_miss (todoMatches_false_after_delete uid')
  · intro uid' d now2
    exact update_todo_err (get_todo_miss (todoMatches_false_after_delete uid'))
  · intro uid' now2
    exact soft_delete_todo_err
      (get_todo_miss (todoMatches_false_after_delete uid'))
  · intro uid' page per_page status priority due ts te sb so r hr
    simp only [list_todos, List.mem_map] at hr
    rcases hr with ⟨x, hx, hxr⟩
    have hx1 : x ∈ sortList (sortLe sb so)
        ((softDeleted db t now).filter
          (listFilter uid' status priority due ts te)) :=
      List.mem_of_mem_drop (List.mem_of_mem_take hx)
    have hx2 := mem_sortList hx1
    have hx3 := List.mem_filter.mp hx2
    have hxid : x.id ≠ t.id := by
      intro heq
      have hfalse := todoMatches_false_after_delete x.user_id x hx3.1
      have hfilter := hx3.2
      simp only [listFilter, Bool.and_eq_true, beq_iff_eq] at hfilter
      have htrue : todoMatches t.id x.user_id x = true := by
        simp [todoMatches, heq, hfilter.1.1.1.2]
      simp [htrue] at hfalse
    rw [← hxr]
    simpa [TodoResponse.ofTodo] using hxid

/-- Witness for C4: delete the single row, then observe the stamped row,
the 404 on a repeated delete, and the empty listing. -/
theorem C4_witness :
    soft_delete_todo
        [{ id := "t1", user_id := "u1", title := "Test",
           created_at := 0, updated_at := 0 }] "t1" "u1" 9 =
      .ok [{ id := "t1", user_id := "u1", title := "Test",
             created_at := 0, updated_at := 0, deleted_at := some 9 }] ∧
    soft_delete_todo
        [{ id := "t1", user_id := "u1", title := "Test",
           created_at := 0, updated_at := 0, deleted_at := some 9 }]
        "t1" "u1" 10 = .error (.notFoundError "Todo not found") := by
  have h := C4_soft_delete_semantics
    [{ id := "t1", user_id := "u1", title := "Test",
       created_at := 0, updated_at := 0 }]
    { id := "t1", user_id := "u1", title := "Test",
      created_at := 0, updated_at := 0 }
    9 (by decide) (by decide) (by decide)
  refine ⟨by simpa [softDeleted] using h.1, ?_⟩
  have h2 := h.2.2.2.2.2.1 "u1" 10
  simpa [softDeleted] using h2

/-- **C7.** For every listing request with `page ≥ 1` and
`per_page ∈ [1, 100]`, the returned items list has length at most
`per_page`, `total` counts exactly the rows matching the owner, not-deleted
and optional filters, and `total_pages` is the ceiling of `total` divided
by `per_page`. -/
theorem C7_list_pagination (db : List Todo) (uid : UUIDStr)
    (page per_page : Nat) (status : Option TodoStatus)
    (priority : Option Priority) (due : Option String) (ts te : Int)
    (sb so : String)
    (_hpage : 1 ≤ page) (hpp1 : 1 ≤ per_page) (hpp2 : per_page ≤ 100) :
    (list_todos db uid page per_page status priority due ts te sb
        so).items.length ≤ per_page ∧
    (list_todos db uid page per_page status priority due ts te sb so).total =
      db.countP (listFilter uid status priority due ts te) ∧
    (list_todos db uid page per_page status priority due ts te sb
        so).total_pages =
      (list_todos db uid page per_page status priority due ts te sb
        so).total ⌈/⌉ per_page := by
  refine ⟨?_, ?_, ?_⟩
  · simp only [list_todos, List.length_map, List.length_take]
    exact Nat.min_le_left _ _
  · simp [list_todos, List.countP_eq_length_filter]
  · simp only [list_todos, Nat.ceilDiv_eq_add_pred_div]
    set total :=
      (db.filter (listFilter uid status priority due ts te)).length with ht
    by_cases h0 : total > 0
    · simp [h0]
    · have : total = 0 := by omega
      rw [this]
      simp only [gt_iff_lt, Nat.lt_irrefl, if_false]
      have hlt : per_page - 1 < per_page := by omega
      simp [Nat.div_eq_of_lt hlt]

/-- Witness for C7: 50 matching rows, `page = 2`, `per_page = 10`; the
theorem's bounds hold and the computation indeed yields `total_pages = 5`
with ten items on the page. -/
theorem C7_witness :
    ((list_todos (sampleTodos 50) "u" 2 10).items.length ≤ 10 ∧
     (list_todos (sampleTodos 50) "u" 2 10).total =
       (sampleTodos 50).countP (listFilter "u" none none none 0 0) ∧
     (list_todos (sampleTodos 50) "u" 2 10).total_pages =
       (list_todos (sampleTodos 50) "u" 2 10).total ⌈/⌉ 10) ∧
    (list_todos (sampleTodos 50) "u" 2 10).total = 50 ∧
    (list_todos (sampleTodos 50) "u" 2 10).total_pages = 5 ∧
    (list_todos (sampleTodos 50) "u" 2 10).items.length = 10 := by
  refine ⟨C7_list_pagination (sampleTodos 50) "u" 2 10 none none none 0 0
    "created_at" "desc" (by decide) (by decide) (by decide), ?_, ?_, ?_⟩
  · decide
  · decide
  · decide

section ApplyUpdateFields

variable (t : Todo) (d : TodoUpdate) (now : Int)

theorem applyUpdate_id : (applyUpdate t d now).id = t.id := by
  unfold applyUpdate
  by_cases h : (d.title.isSome || d.description.isSome) = true <;> simp [h]

theorem applyUpdate_user_id : (applyUpdate t d now).user_id = t.user_id := by
  unfold applyUpdate
  by_cases h : (d.title.isSome || d.description.isSome) = true <;> simp [h]

theorem applyUpdate_created_at :
    (applyUpdate t d now).created_at = t.created_at := by
  unfold applyUpdate
  by_cases h : (d.title.isSome || d.description.isSome) = true <;> simp [h]

theorem applyUpdate_deleted_at :
    (applyUpdate t d now).deleted_at = t.deleted_at := by
  unfold applyUpdate
  by_cases h : (d.title.isSome || d.description.isSome) = true <;> simp [h]

theorem applyUpdate_updated_at : (applyUpdate t d now).updated_at = now := by
  unfold applyUpdate
  by_cases h : (d.title.isSome || d.description.isSome) = true <;> simp [h]

theorem applyUpdate_title :
    (applyUpdate t d now).title = d.title.getD t.title := by
  unfold applyUpdate
  by_cases h : (d.title.isSome || d.description.isSome) = true <;> simp [h]

theorem applyUpdate_description :
    (applyUpdate t d now).description = d.description.getD t.description := by
  unfold applyUpdate
  by_cases h : (d.title.isSome || d.description.isSome) = true <;> simp [h]

theorem applyUpdate_status :
    (applyUpdate t d now).status = d.status.getD t.status := by
  unfold applyUpdate
  by_cases h : (d.title.isSome || d.description.isSome) = true <;> simp [h]

theorem applyUpdate_priority :
    (applyUpdate t d now).priority = d.priority.getD t.priority := by
  unfold applyUpdate
  by_cases h : (d.title.isSome || d.description.isSome) = true <;> simp [h]

theorem applyUpdate_due_date :
    (applyUpdate t d now).due_date = d.due_date.getD t.due_date := by
  unfold applyUpdate
  by_cases h : (d.title.isSome || d.description.isSome) = true <;> simp [h]

/-- The tag list is untouched when neither title nor description was
supplied. -/
theorem applyUpdate_tags_of_none (h1 : d.title = none)
    (h2 : d.description = none) : (applyUpdate t d now).tags = t.tags := by
  unfold applyUpdate
  simp [h1, h2]

/-- When title or description was supplied, the tag list is recomputed by
the extractor from the updated title and description. -/
theorem applyUpdate_tags_regen (h : d.title ≠ none ∨ d.description ≠ none) :
    (applyUpdate t d now).tags =
      extract_tags (applyUpdate t d now).title
        (applyUpdate t d now).description := by
  have hcond : (d.title.isSome || d.description.isSome) = true := by
    rcases h with h | h <;> simp [Option.isSome_iff_ne_none, h]
  unfold applyUpdate
  simp [hcond]

end ApplyUpdateFields

/-- **C8 counterexample.** The claim "only the fields the client supplied
change; every other stored field is unchanged" fails: updating only the
title of a task whose stored tag list is `[]` also rewrites the stored
`tags` field (a field the client did not supply) to `["work", "meeting"]`. -/
theorem C8_counterexample :
    update_todo
        [{ id := "t1", user_id := "u1", title := "x",
           created_at := 0, updated_at := 0 }] "t1" "u1"
        { title := some "meeting" } 7 =
      .ok ({ id := "t1", user_id := "u1", title := "meeting",
             tags := ["work", "meeting"], created_at := 0, updated_at := 7 },
           [{ id := "t1", user_id := "u1", title := "meeting",
              tags := ["work", "meeting"], created_at := 0,
              updated_at := 7 }]) ∧
    (["work", "meeting"] : List String) ≠ [] := by
  exact ⟨by decide, by decide⟩

/-- **C8 (amended).** For every update of a task, the supplied fields are
applied and the unsupplied ones among title, description, status, priority
and due date are unchanged; id, owner id, creation timestamp and deletion
marker are always unchanged; the update timestamp is refreshed to the
update time; and the derived tag list — recomputed exactly when title or
description is supplied — is unchanged otherwise. -/
theorem C8_partial_update_frame (db : List Todo) (tid uid : UUIDStr)
    (d : TodoUpdate) (now : Int) (t : Todo)
    (hget : get_todo db tid uid = .ok t) :
    update_todo db tid uid d now =
      .ok (applyUpdate t d now,
           db.map (fun x => if x.id == t.id then applyUpdate t d now
                            else x)) ∧
    (applyUpdate t d now).id = t.id ∧
    (applyUpdate t d now).user_id = t.user_id ∧
    (applyUpdate t d now).created_at = t.created_at ∧
    (applyUpdate t d now).deleted_at = t.deleted_at ∧
    (∀ s, d.title = some s → (applyUpdate t d now).title = s) ∧
    (d.title = none → (applyUpdate t d now).title = t.title) ∧
    (d.description = none →
      (applyUpdate t d now).description = t.description) ∧
    (d.status = none → (applyUpdate t d now).status = t.status) ∧
    (d.priority = none → (applyUpdate t d now).priority = t.priority) ∧
    (d.due_date = none → (applyUpdate t d now).due_date = t.due_date) ∧
    (applyUpdate t d now).updated_at = now ∧
    (d.title = none → d.description = none →
      (applyUpdate t d now).tags = t.tags) := by
  refine ⟨by simp [update_todo, hget], applyUpdate_id t d now,
    applyUpdate_user_id t d now, applyUpdate_created_at t d now,
    applyUpdate_deleted_at t d now, ?_, ?_, ?_, ?_, ?_, ?_,
    applyUpdate_updated_at t d now, applyUpdate_tags_of_none t d now⟩
  · intro s hs
    rw [applyUpdate_title, hs]
    rfl
  · intro hs
    rw [applyUpdate_title, hs]
    rfl
  · intro hs
    rw [applyUpdate_description, hs]
    rfl
  · intro hs
    rw [applyUpdate_status, hs]
    rfl
  · intro hs
    rw [applyUpdate_priority, hs]
    rfl
  · intro hs
    rw [applyUpdate_due_date, hs]
    rfl

/-- Witness for C8 (amended): a supplied-status-only update keeps every
other stored field and refreshes the update timestamp. -/
theorem C8_witness :
    update_todo
        [{ id := "t1", user_id := "u1", title := "Test",
           created_at := 0, updated_at := 0 }] "t1" "u1"
        { status := some .completed } 7 =
      .ok (applyUpdate
            { id := "t1", user_id := "u1", title := "Test",
              created_at := 0, updated_at := 0 }
            { status := some .completed } 7,
           [applyUpdate
            { id := "t1", user_id := "u1", title := "Test",
              created_at := 0, updated_at := 0 }
            { status := some .completed } 7]) ∧
    (applyUpdate
        { id := "t1", user_id := "u1", title := "Test",
          created_at := 0, updated_at := 0 }
        { status := some .completed } 7).title = "Test" ∧
    (applyUpdate
        { id := "t1", user_id := "u1", title := "Test",
          created_at := 0, updated_at := 0 }
        { status := some .completed } 7).updated_at = 7 ∧
    (applyUpdate
        { id := "t1", user_id := "u1", title := "Test",
          created_at := 0, updated_at := 0 }
        { status := some .completed } 7).tags = [] := by
  have h := C8_partial_update_frame
    [{ id := "t1", user_id := "u1", title := "Test",
       created_at := 0, updated_at := 0 }] "t1" "u1"
    { status := some .completed } 7
    { id := "t1", user_id := "u1", title := "Test",
      created_at := 0, updated_at := 0 } (by decide)
  refine ⟨by simpa using h.1, h.2.2.2.2.2.2.1 rfl, h.2.2.2.2.2.2.2.2.2.2.2.1,
    h.2.2.2.2.2.2.2.2.2.2.2.2 rfl rfl⟩

/-- The extractor never returns more than five tags (`tags[:5]`). -/
theorem extract_tags_le_five (title : String) (descr : Option String) :
    (extract_tags title descr).length ≤ 5 := by
  simp only [extract_tags]
  exact List.length_take_le 5 _

/-- A fetched row is a row of the store. -/
theorem get_todo_ok_mem {db : List Todo} {tid uid : UUIDStr} {t : Todo}
    (h : get_todo db tid uid = .ok t) : t ∈ db := by
  unfold get_todo at h
  cases hfind : db.find? (todoMatches tid uid) with
  | none => rw [hfind] at h; cases h
  | some u =>
    rw [hfind] at h
    cases h
    exact List.mem_of_find?_eq_some hfind

/-- `applyUpdate` preserves the record invariant for validated update
data. -/
theorem applyUpdate_inv (t : Todo) (d : TodoUpdate) (now : Int)
    (hinv : TodoInv t) (hvalid : TodoUpdate.valid d) :
    TodoInv (applyUpdate t d now) := by
  obtain ⟨h1, h2, h3⟩ := hinv
  refine ⟨?_, ?_, ?_⟩
  · rw [applyUpdate_title]
    cases hd : d.title with
    | none => simpa using h1
    | some s => simpa [hd] using (hvalid s hd).1
  · rw [applyUpdate_title]
    cases hd : d.title with
    | none => simpa using h2
    | some s => simpa [hd] using (hvalid s hd).2
  · by_cases hb : d.title = none ∧ d.description = none
    · rw [applyUpdate_tags_of_none t d now hb.1 hb.2]
      exact h3
    · have hor : d.title ≠ none ∨ d.description ≠ none := by tauto
      rw [applyUpdate_tags_regen t d now hor]
      exact extract_tags_le_five _ _

/-- **C9.** The record invariant — title between 1 and 255 characters and
at most five derived tags — holds for every row after any `create` with
validated input, and is preserved by any `update` with validated input:
if every stored row satisfies it beforehand, every stored row satisfies it
afterwards. -/
theorem C9_record_invariant (db : List Todo) (hdb : ∀ x ∈ db, TodoInv x) :
    (∀ uid d new_id now, TodoCreate.valid d →
      ∀ x ∈ (create_todo db uid d new_id now).2, TodoInv x) ∧
    (∀ tid uid d now t' db', TodoUpdate.valid d →
      update_todo db tid uid d now = .ok (t', db') →
      ∀ x ∈ db', TodoInv x) := by
  constructor
  · intro uid d new_id now hvalid x hx
    simp only [create_todo, List.mem_append, List.mem_singleton] at hx
    rcases hx with hx | hx
    · exact hdb x hx
    · subst hx
      exact ⟨hvalid.1, hvalid.2, extract_tags_le_five _ _⟩
  · intro tid uid d now t' db' hvalid hupd x hx
    cases hget : get_todo db tid uid with
    | error e =>
      simp only [update_todo, hget] at hupd
      cases hupd
    | ok t =>
      simp only [update_todo, hget, Except.ok.injEq, Prod.mk.injEq] at hupd
      obtain ⟨-, hdb'⟩ := hupd
      subst hdb'
      rcases List.mem_map.mp hx with ⟨y, hy, hyx⟩
      by_cases hid : (y.id == t.id) = true
      · have hxau : x = applyUpdate t d now := by rw [← hyx]; simp [hid]
        subst hxau
        exact applyUpdate_inv t d now (hdb t (get_todo_ok_mem hget)) hvalid
      · have hxy : x = y := by rw [← hyx]; simp [hid]
        rw [hxy]
        exact hdb y hy

/-- Witness for C9: a fresh store, one valid creation; the created record
satisfies the invariant. -/
theorem C9_witness :
    TodoInv { id := "t1", user_id := "u", title := "Test",
              tags := ["learning", "tech", "test"],
              created_at := 0, updated_at := 0 } :=
  (C9_record_invariant [] (by simp)).1 "u" { title := "Test" } "t1" 0
    ⟨by decide, by decide⟩ _ (by decide)

/-- **C10.** After an update that supplies title or description, the stored
tag list equals the extractor (`extract_tags`, the same function `create`
uses) applied to the task's new title and description; an update supplying
neither leaves the tag list unchanged. -/
theorem C10_tags_recomputed (db : List Todo) (tid uid : UUIDStr)
    (d : TodoUpdate) (now : Int) (t : Todo)
    (hget : get_todo db tid uid = .ok t) :
    update_todo db tid uid d now =
      .ok (applyUpdate t d now,
           db.map (fun x => if x.id == t.id then applyUpdate t d now
                            else x)) ∧
    ((d.title ≠ none ∨ d.description ≠ none) →
      (applyUpdate t d now).tags =
        extract_tags (applyUpdate t d now).title
          (applyUpdate t d now).description) ∧
    (d.title = none → d.description = none →
      (applyUpdate t d now).tags = t.tags) ∧
    (∀ db2 uid2 dc nid now2,
      ((create_todo db2 uid2 dc nid now2).1).tags =
        extract_tags dc.title dc.description) :=
  ⟨by simp [update_todo, hget], applyUpdate_tags_regen t d now,
   applyUpdate_tags_of_none t d now, fun _ _ _ _ _ => rfl⟩

/-- Witness for C10: supplying a new description recomputes the tags from
the unchanged title and the new description. -/
theorem C10_witness :
    (applyUpdate
        { id := "t1", user_id := "u1", title := "meeting",
          tags := ["work", "meeting"], created_at := 0, updated_at := 0 }
        { description := some (some "buy groceries") } 7).tags =
      extract_tags
        (applyUpdate
          { id := "t1", user_id := "u1", title := "meeting",
            tags := ["work", "meeting"], created_at := 0, updated_at := 0 }
          { description := some (some "buy groceries") } 7).title
        (applyUpdate
          { id := "t1", user_id := "u1", title := "meeting",
            tags := ["work", "meeting"], created_at := 0, updated_at := 0 }
          { description := some (some "buy groceries") } 7).description :=
  (C10_tags_recomputed
    [{ id := "t1", user_id := "u1", title := "meeting",
       tags := ["work", "meeting"], created_at := 0, updated_at := 0 }]
    "t1" "u1" { description := some (some "buy groceries") } 7
    { id := "t1", user_id := "u1", title := "meeting",
      tags := ["work", "meeting"], created_at := 0, updated_at := 0 }
    (by decide)).2.1 (Or.inr (by decide))

/-- **C3.** A login with an unknown email and a login with a known email
but failing password check raise the very same generic
`AuthenticationError("Invalid credentials")` (status 401): the two results
are equal, and the error-handler envelope built from the error is the same
object for both runs at any given timestamp — nothing observable separates
"no such user" from "wrong password". -/
theorem C3_generic_auth_failure (verify_pw : String → String → Bool)
    (s : Settings) (now : Int) (jti : UUIDStr) (db : List User)
    (email1 password1 email2 password2 : String) (u : User)
    (h1 : get_by_email db email1 = none)
    (h2 : get_by_email db email2 = some u)
    (h3 : verify_pw password2 u.password_hash = false) :
    authenticate_user verify_pw s now jti db email1 password1 =
      .error (.authenticationError "Invalid credentials") ∧
    authenticate_user verify_pw s now jti db email2 password2 =
      .error (.authenticationError "Invalid credentials") ∧
    authenticate_user verify_pw s now jti db email1 password1 =
      authenticate_user verify_pw s now jti db email2 password2 ∧
    (AppError.authenticationError "Invalid credentials").statusCode = 401 ∧
    (∀ ts, app_exception_envelope
        (AppError.authenticationError "Invalid credentials") ts =
      { success := false, data := none,
        error := some "Invalid credentials", timestamp := ts }) := by
  have ha : authenticate_user verify_pw s now jti db email1 password1 =
      .error (.authenticationError "Invalid credentials") := by
    simp [authenticate_user, h1]
  have hb : authenticate_user verify_pw s now jti db email2 password2 =
      .error (.authenticationError "Invalid credentials") := by
    simp [authenticate_user, h2, h3]
  exact ⟨ha, hb, by rw [ha, hb], rfl, fun _ => rfl⟩

/-- Witness for C3: one stored user; an unknown email and a wrong password
produce the identical error value. -/
theorem C3_witness :
    authenticate_user (fun p h => p == h) {} 0 "j"
        [{ id := "u1", email := "alice@example.com", username := "alice",
           password_hash := "secret-hash", created_at := 0,
           updated_at := 0 }]
        "bob@example.com" "anything" =
      .error (.authenticationError "Invalid credentials") ∧
    authenticate_user (fun p h => p == h) {} 0 "j"
        [{ id := "u1", email := "alice@example.com", username := "alice",
           password_hash := "secret-hash", created_at := 0,
           updated_at := 0 }]
        "alice@example.com" "wrong" =
      .error (.authenticationError "Invalid credentials") := by
  have h := C3_generic_auth_failure (fun p h => p == h) {} 0 "j"
    [{ id := "u1", email := "alice@example.com", username := "alice",
       password_hash := "secret-hash", created_at := 0, updated_at := 0 }]
    "bob@example.com" "anything" "alice@example.com" "wrong"
    { id := "u1", email := "alice@example.com", username := "alice",
      password_hash := "secret-hash", created_at := 0, updated_at := 0 }
    (by decide) (by decide) (by decide)
  exact ⟨h.1, h.2.1⟩

/-- **C6 counterexample.** The claim fails on responses the application
actually produces, in two ways. (1) The successful delete handler's
envelope has `data = None` *and* `error = None`, so "data is null iff
error is non-null" fails. (2) Not every endpoint's response is an envelope
at all: the root endpoint and the health check return bare info/status
dicts, a missing bearer header gets `HTTPBearer`'s default 403
`{"detail": "Not authenticated"}`, and a request-validation failure gets
FastAPI's default 422 `{"detail": [...]}` (the registered handler catches
`pydantic.ValidationError`, which `RequestValidationError` does not
subclass under Pydantic v2). -/
theorem C6_counterexample :
    (ProducedResponse (.envelope (delete_todo_envelope 0)) ∧
      ¬ ((delete_todo_envelope 0).data = none ↔
         (delete_todo_envelope 0).error ≠ none)) ∧
    (ProducedResponse (.bare (.rootInfo "Full-Stack Todo API" "/api/docs")) ∧
      (ResponseBody.bare
        (.rootInfo "Full-Stack Todo API" "/api/docs")).isEnvelope = false) ∧
    (ProducedResponse (.bare (.healthStatus "healthy" "t" "connected")) ∧
      (ResponseBody.bare
        (.healthStatus "healthy" "t" "connected")).isEnvelope = false) ∧
    (ProducedResponse (.bare (.httpDetail "Not authenticated")) ∧
      (ResponseBody.bare
        (.httpDetail "Not authenticated")).isEnvelope = false) ∧
    (ProducedResponse (.bare (.validationDetail ["field required"])) ∧
      (ResponseBody.bare
        (.validationDetail ["field required"])).isEnvelope = false) :=
  ⟨⟨.deleteTodo 0, by simp [delete_todo_envelope]⟩,
   ⟨.root, rfl⟩,
   ⟨.health true "t", rfl⟩,
   ⟨.missingBearer, rfl⟩,
   ⟨.requestValidation ["field required"], rfl⟩⟩

/-- **C6 (amended).** Not every endpoint's response is the envelope — the
root endpoint and the health check return bare dicts, and missing bearer
credentials (403) and request-validation failures (422) get the framework's
default `detail` bodies. Every response the application produces that *is*
an envelope carries `success`, `data`, `error` and `timestamp` with at most
one of `data`/`error` non-null: `error` is non-null exactly on failure
envelopes (`success = false`), while the delete and logout success
envelopes have both `data` and `error` null. -/
theorem C6_envelope_discipline (b : ResponseBody) (h : ProducedResponse b) :
    ∀ e, b = .envelope e →
      ¬ (e.data ≠ none ∧ e.error ≠ none) ∧
      (e.error ≠ none ↔ e.success = false) := by
  cases h <;> intro e he <;>
    first
    | exact ResponseBody.noConfusion he
    | (cases he
       simp [list_todos_envelope, create_todo_envelope, get_todo_envelope,
         update_todo_envelope, delete_todo_envelope, signup_envelope,
         login_envelope, refresh_envelope, logout_envelope, me_envelope,
         update_me_envelope, app_exception_envelope,
         validation_error_envelope, unexpected_error_envelope])

/-- Witness for C6 (amended): the not-found error envelope. -/
theorem C6_witness :
    ¬ ((app_exception_envelope (.notFoundError "Todo not found") 0).data ≠
          none ∧
       (app_exception_envelope (.notFoundError "Todo not found") 0).error ≠
          none) ∧
    ((app_exception_envelope (.notFoundError "Todo not found") 0).error ≠
        none ↔
      (app_exception_envelope
        (.notFoundError "Todo not found") 0).success = false) :=
  C6_envelope_discipline _
    (.appException (.notFoundError "Todo not found") 0) _ rfl

end TodoApp
